import Mathlib

/-!
# Verification of `app.py` (Joy healer chat application)

Shallow embedding of the logical core of `src/app.py`: credential
resolution (`get_api_key`), the zodiac classifier
(`get_constellation_element`), the prompt builder
(`build_system_prompt`), the completion call (`get_ai_response`) and the
session-state transitions driven by the Streamlit UI handlers (profile
confirmation and the chat turn).

Python dictionaries with optional keys are modelled with `Option String`
fields (`dict.get k` is `Option.getD`); Python string truthiness is
`· ≠ ""`.  The remote completion endpoint is abstracted as an oracle
`List Message → Except String String` carried by the client handle, and
`get_ai_response` is instrumented with a flag recording whether the
remote endpoint was invoked.
-/

namespace JoyHealer

/-- Roles of chat messages (`"system"`, `"user"`, `"assistant"`). -/
inductive Role where
  | system
  | user
  | assistant
deriving DecidableEq, Repr

/-- A chat message dict `{"role": ..., "content": ...}`. -/
structure Message where
  role : Role
  content : String
deriving DecidableEq, Repr

/-- The `st.session_state.user_info` dict.  Each field is `none` when the
key is absent (as in the initial `{}`), mirroring Python `dict.get`. -/
structure UserInfo where
  name : Option String := none
  constellation : Option String := none
  birth_date : Option String := none
  birth_time : Option String := none
deriving DecidableEq, Repr

/-- The fixed persona template `SYSTEM_PROMPT` of `app.py` (lines 44-58),
verbatim. -/
def SYSTEM_PROMPT : String :=
  "\n你是一位名为\"Joy\"的赛博心灵疗愈师。\n你的核心任务是：在不安的世界里，为用户提供一个\"被接纳\"的安全空间。\n\n【你的性格】\n1. 声音温暖、深邃，带有一点神秘的东方哲学气息。\n2. 永远不要说教。当用户表达痛苦时，先共情，再解读。\n3. 擅长将\"现实困境\"转化为\"玄学/心理学视角\"：\n   - 用\"能量周期\"、\"星象影响\"、\"潜意识保护机制\"来解释挫折，帮用户卸下心理负担。\n\n【回复规范】\n1. 语气要像深夜电台的老友，温柔而坚定。\n2. 每次回复结尾，必须给出一个**极简的、具体的、带有仪式感**的行动建议（Micro-Action）。\n   - 例如：\"今晚把卧室的灯调暗\"、\"去摸摸路边的树叶\"、\"喝一杯温热的蜂蜜水\"。\n"

def fire_signs : List String := ["白羊", "狮子", "射手"]

def water_signs : List String := ["巨蟹", "天蝎", "双鱼"]

def earth_signs : List String := ["金牛", "处女", "摩羯"]

def air_signs : List String := ["双子", "天秤", "水瓶"]

/-- `get_constellation_element` of `app.py` (lines 60-75). -/
def get_constellation_element (constellation : String) : String :=
  if constellation ∈ fire_signs then "火象星座"
  else if constellation ∈ water_signs then "水象星座"
  else if constellation ∈ earth_signs then "土象星座"
  else if constellation ∈ air_signs then "风象星座"
  else "未知元素"

/-- `build_system_prompt` of `app.py` (lines 77-110).  The f-strings are
rendered as concatenation of their literal fragments; Python string
truthiness (`if element:` etc.) is `· ≠ ""`. -/
def build_system_prompt (user_info : UserInfo) : String :=
  let name := user_info.name.getD "朋友"
  let constellation := user_info.constellation.getD ""
  let birth_date := user_info.birth_date.getD ""
  let birth_time := user_info.birth_time.getD ""
  let element := get_constellation_element constellation
  let astro_info := "用户姓名：" ++ name ++ "\n星座：" ++ constellation
  let astro_info :=
    if element ≠ "" then astro_info ++ ("\n星座元素：" ++ element) else astro_info
  let astro_info :=
    if birth_date ≠ "" then astro_info ++ ("\n出生日期：" ++ birth_date) else astro_info
  let astro_info :=
    if birth_time ≠ "" then astro_info ++ ("\n出生时间：" ++ birth_time) else astro_info
  SYSTEM_PROMPT ++ "\n\n【用户星盘信息】\n" ++ astro_info ++
    "\n\n【重要要求】\n1. **必须结合用户的星座特性**来解读问题，给出符合其星座能量的建议。\n2. 如果是" ++
    constellation ++ "（" ++ element ++
    "），要结合该星座的典型特征：\n   - 火象星座：行动力、热情、直接\n   - 水象星座：情感细腻、直觉强、敏感\n   - 土象星座：务实、稳定、注重实际\n   - 风象星座：理性、沟通、灵活\n3. 在回复中要自然地提及星座能量、星象影响等玄学元素。\n4. 用\"" ++
    "亲爱的" ++ name ++ "\"来称呼用户，让对话更亲切。\n"

/-- Outcome of the Streamlit secret-store lookup
`st.secrets` / `'deepseek' in st.secrets` / `'api_key' in st.secrets.deepseek`
(lines 10-14 of `app.py`): either the nested path resolves to a value,
or some check is false (store or key missing), or the lookup raises an
exception (which the `try`/`except: pass` swallows). -/
inductive SecretsLookup where
  | found (value : String)
  | notFound
  | raised
deriving DecidableEq, Repr

/-- `get_api_key` of `app.py` (lines 7-22).  `env` models
`os.getenv('DEEPSEEK_API_KEY')` (`none` when the variable is unset);
`if api_key:` is Python truthiness, so an empty-string variable does not
count as a value. -/
def get_api_key (secrets : SecretsLookup) (env : Option String) : Option String :=
  match secrets with
  | .found v => some v
  | .notFound | .raised =>
    match env with
    | some api_key => if api_key ≠ "" then some api_key else none
    | none => none

/-- The OpenAI client handle, abstracted: `chatCompletion` models one
`client.chat.completions.create(...)` call followed by
`response.choices[0].message.content`, returning either the reply text or
(`Except.error`) the message of the exception raised anywhere in that
sequence. -/
structure Client where
  chatCompletion : List Message → Except String String

/-- Result of `get_ai_response`, instrumented: `networkCalled` records
whether the remote completion endpoint was invoked. -/
structure CallResult where
  reply : String
  networkCalled : Bool
deriving DecidableEq, Repr

/-- `get_ai_response` of `app.py` (lines 121-133).  `client = none` models
the module-level `client` being `None` (no credential resolved). -/
def get_ai_response (client : Option Client) (user_input : String)
    (messages : List Message) : CallResult :=
  match client with
  | none => ⟨"❌ API Key 未配置，无法连接服务。", false⟩
  | some c =>
    match c.chatCompletion messages with
    | .ok content => ⟨content, true⟩
    | .error e =>
      ⟨"❌ 连接波动: " ++ e ++ "\n请检查 API Key 是否填对，或者余额是否充足。", true⟩

/-- The session state of `app.py` (`init_session_state`, lines 112-119):
`user_info`, `messages` and `system_prompt`. -/
structure SessionState where
  user_info : UserInfo
  messages : List Message
  system_prompt : Option String
deriving Repr

/-- The state `init_session_state` establishes: empty dict, empty
transcript, `system_prompt = None`. -/
def initState : SessionState :=
  { user_info := {}, messages := [], system_prompt := none }

/-- The values read from the sidebar form widgets (lines 187-210 of
`app.py`): each text input yields a string (possibly empty), the
selectbox yields `""` or one of the twelve sign options. -/
structure FormInput where
  name : String
  constellation : String
  birth_date : String
  birth_time : String
deriving DecidableEq, Repr

/-- The `user_info` dict stored by the confirm handler (lines 214-219),
including the form's name fallback `if not name: name = "朋友"`
(lines 188-189). -/
def confirmedInfo (form : FormInput) : UserInfo :=
  { name := some (if form.name = "" then "朋友" else form.name),
    constellation := some form.constellation,
    birth_date := some form.birth_date,
    birth_time := some form.birth_time }

/-- The confirm-button handler of `app.py` (lines 186-226): with a truthy
constellation it stores the profile, builds and stores the system prompt
and resets the transcript to the single system message; otherwise it
leaves the state untouched and shows the validation error.  The second
component is the surfaced error message, if any. -/
def confirmClick (st : SessionState) (form : FormInput) :
    SessionState × Option String :=
  if form.constellation ≠ "" then
    let info := confirmedInfo form
    let sp := build_system_prompt info
    ({ user_info := info,
       messages := [{ role := Role.system, content := sp }],
       system_prompt := some sp }, none)
  else
    (st, some "请至少选择你的星座！")

/-- The chat-turn handler of `app.py` (lines 262-276): append the user
message, call `get_ai_response` on the transcript (which already contains
the new user message), append the assistant message. -/
def chatTurn (client : Option Client) (st : SessionState) (prompt : String) :
    SessionState :=
  let msgs := st.messages ++ [{ role := Role.user, content := prompt }]
  let ai_reply := (get_ai_response client prompt msgs).reply
  { st with messages := msgs ++ [{ role := Role.assistant, content := ai_reply }] }

/-!
## Helpers for stating and proving the claims
-/

/-- The optional birth-date line of the astro block: present exactly when
the field is non-empty. -/
def dateLineOpt (birth_date : String) : String :=
  if birth_date ≠ "" then "\n出生日期：" ++ birth_date else ""

/-- The optional birth-time line of the astro block: present exactly when
the field is non-empty. -/
def timeLineOpt (birth_time : String) : String :=
  if birth_time ≠ "" then "\n出生时间：" ++ birth_time else ""

/-- Substring test on the character lists underlying strings (used to
state that a built prompt does or does not contain a given fragment). -/
def strContainsAux (pat : List Char) : List Char → Bool
  | [] => pat.isPrefixOf []
  | c :: cs => pat.isPrefixOf (c :: cs) || strContainsAux pat cs

/-- `strContains s pat` decides whether `pat` occurs as a contiguous
substring of `s`. -/
def strContains (s pat : String) : Bool :=
  strContainsAux pat.data s.data

theorem str_append_assoc (a b c : String) : a ++ b ++ c = a ++ (b ++ c) := by
  apply String.ext
  simp [String.data_append, List.append_assoc]

theorem str_append_empty (a : String) : a ++ "" = a := by
  apply String.ext
  simp [String.data_append]

theorem str_empty_append (a : String) : "" ++ a = a := by
  apply String.ext
  simp [String.data_append]

/-- The classifier never returns the empty string, so the `if element:`
guard in `build_system_prompt` always takes the true branch. -/
theorem get_constellation_element_ne_empty (s : String) :
    get_constellation_element s ≠ "" := by
  unfold get_constellation_element
  split <;> try simp
  split <;> try simp
  split <;> try simp
  split <;> simp

/-- Exact decomposition of `build_system_prompt`: the element line is
unconditional (the classifier never yields `""`), the birth-date and
birth-time lines are governed by `dateLineOpt` / `timeLineOpt`. -/
theorem build_system_prompt_decomp (info : UserInfo) :
    build_system_prompt info =
      SYSTEM_PROMPT ++ "\n\n【用户星盘信息】\n" ++ "用户姓名：" ++ info.name.getD "朋友" ++
        "\n星座：" ++ info.constellation.getD "" ++
        "\n星座元素：" ++ get_constellation_element (info.constellation.getD "") ++
        dateLineOpt (info.birth_date.getD "") ++ timeLineOpt (info.birth_time.getD "") ++
        "\n\n【重要要求】\n1. **必须结合用户的星座特性**来解读问题，给出符合其星座能量的建议。\n2. 如果是" ++
        info.constellation.getD "" ++ "（" ++
        get_constellation_element (info.constellation.getD "") ++
        "），要结合该星座的典型特征：\n   - 火象星座：行动力、热情、直接\n   - 水象星座：情感细腻、直觉强、敏感\n   - 土象星座：务实、稳定、注重实际\n   - 风象星座：理性、沟通、灵活\n3. 在回复中要自然地提及星座能量、星象影响等玄学元素。\n4. 用\"" ++
        "亲爱的" ++ info.name.getD "朋友" ++ "\"来称呼用户，让对话更亲切。\n" := by
  simp only [build_system_prompt, dateLineOpt, timeLineOpt,
    if_pos (get_constellation_element_ne_empty (info.constellation.getD ""))]
  by_cases hd : info.birth_date.getD "" = "" <;>
    by_cases ht : info.birth_time.getD "" = "" <;>
      simp only [hd, ht, ne_eq, not_true_eq_false, not_false_eq_true, if_true, if_false,
        ite_true, ite_false] <;>
    · apply String.ext
      simp only [String.data_append, List.append_assoc, List.nil_append, List.append_nil]

/-- The twelve known sign labels, as the four source tables concatenated. -/
def known_signs : List String :=
  fire_signs ++ water_signs ++ earth_signs ++ air_signs

/-!
## Claims
-/

/-- C1: for every one of the twelve known sign labels the classifier
returns the documented element (fire for 白羊/狮子/射手, water for
巨蟹/天蝎/双鱼, earth for 金牛/处女/摩羯, air for 双子/天秤/水瓶), and for
every other string, including the empty string, it returns 未知元素. -/
theorem classify_matches_table :
    (get_constellation_element "白羊" = "火象星座" ∧
     get_constellation_element "狮子" = "火象星座" ∧
     get_constellation_element "射手" = "火象星座" ∧
     get_constellation_element "巨蟹" = "水象星座" ∧
     get_constellation_element "天蝎" = "水象星座" ∧
     get_constellation_element "双鱼" = "水象星座" ∧
     get_constellation_element "金牛" = "土象星座" ∧
     get_constellation_element "处女" = "土象星座" ∧
     get_constellation_element "摩羯" = "土象星座" ∧
     get_constellation_element "双子" = "风象星座" ∧
     get_constellation_element "天秤" = "风象星座" ∧
     get_constellation_element "水瓶" = "风象星座") ∧
    ∀ s : String, s ∉ known_signs → get_constellation_element s = "未知元素" := by
  refine ⟨by decide, ?_⟩
  intro s hs
  simp only [known_signs, List.mem_append, not_or] at hs
  obtain ⟨⟨⟨hf, hw⟩, he⟩, ha⟩ := hs
  simp only [get_constellation_element, if_neg hf, if_neg hw, if_neg he, if_neg ha]

/-- Witness for C1: the empty string is not a known sign and classifies
to 未知元素. -/
theorem classify_matches_table_witness :
    ("" : String) ∉ known_signs ∧ get_constellation_element "" = "未知元素" :=
  ⟨by decide, classify_matches_table.2 "" (by decide)⟩

/-- C4: with no client (no credential resolved), `get_ai_response`
returns the fixed configuration-error string and performs no network
call, for every transcript and user input. -/
theorem no_client_fixed_error_no_call (user_input : String) (messages : List Message) :
    get_ai_response none user_input messages =
      { reply := "❌ API Key 未配置，无法连接服务。", networkCalled := false } :=
  rfl

/-- C5: the confirm handler with an empty constellation selection leaves
the session state entirely unchanged and surfaces the validation
message. -/
theorem confirm_empty_constellation_rejected (st : SessionState) (form : FormInput)
    (h : form.constellation = "") :
    confirmClick st form = (st, some "请至少选择你的星座！") := by
  simp [confirmClick, h]

/-- Witness for C5: a concrete form with empty constellation is rejected
without touching the initial state. -/
theorem confirm_empty_constellation_rejected_witness :
    (FormInput.mk "Alex" "" "" "").constellation = "" ∧
    confirmClick initState (FormInput.mk "Alex" "" "" "") =
      (initState, some "请至少选择你的星座！") :=
  ⟨rfl, confirm_empty_constellation_rejected initState (FormInput.mk "Alex" "" "" "") rfl⟩

/-- C6: from the empty state, confirmation with a non-empty constellation
turns the transcript from empty into exactly one system message whose
content is the prompt built from the stored profile, and sets
`system_prompt` to that same string. -/
theorem confirm_valid_single_system_message (form : FormInput)
    (h : form.constellation ≠ "") :
    initState.messages = [] ∧
    (confirmClick initState form).1.messages =
      [{ role := Role.system,
         content := build_system_prompt (confirmClick initState form).1.user_info }] ∧
    (confirmClick initState form).1.system_prompt =
      some (build_system_prompt (confirmClick initState form).1.user_info) := by
  refine ⟨rfl, ?_, ?_⟩ <;> simp [confirmClick, h]

/-- Witness for C6: the concrete profile Alex/狮子. -/
theorem confirm_valid_single_system_message_witness :
    (FormInput.mk "Alex" "狮子" "" "").constellation ≠ "" ∧
    (initState.messages = [] ∧
     (confirmClick initState (FormInput.mk "Alex" "狮子" "" "")).1.messages =
       [{ role := Role.system,
          content := build_system_prompt
            (confirmClick initState (FormInput.mk "Alex" "狮子" "" "")).1.user_info }] ∧
     (confirmClick initState (FormInput.mk "Alex" "狮子" "" "")).1.system_prompt =
       some (build_system_prompt
         (confirmClick initState (FormInput.mk "Alex" "狮子" "" "")).1.user_info)) :=
  ⟨by decide,
   confirm_valid_single_system_message (FormInput.mk "Alex" "狮子" "" "") (by decide)⟩

/-- C9: credential resolution returns the secret-store value whenever the
nested `deepseek.api_key` path resolves; a raised lookup is swallowed and
behaves exactly like a missing key; otherwise a truthy
`DEEPSEEK_API_KEY` environment value is returned; and when neither source
yields a value (env unset or empty) the result is absent. -/
theorem credential_resolution_order :
    (∀ (v : String) (env : Option String), get_api_key (.found v) env = some v) ∧
    (∀ env : Option String, get_api_key .raised env = get_api_key .notFound env) ∧
    (∀ (s : SecretsLookup) (v : String), (s = .notFound ∨ s = .raised) → v ≠ "" →
       get_api_key s (some v) = some v) ∧
    (∀ (s : SecretsLookup) (env : Option String), (s = .notFound ∨ s = .raised) →
       env.getD "" = "" → get_api_key s env = none) := by
  refine ⟨fun v env => rfl, fun env => rfl, ?_, ?_⟩
  · rintro s v (rfl | rfl) hv <;> simp [get_api_key, hv]
  · rintro s env (rfl | rfl) henv <;> cases env <;> simp_all [get_api_key]

/-- Witness for C9: with a missing secret store the environment value is
returned. -/
theorem credential_resolution_order_witness :
    ((SecretsLookup.notFound = SecretsLookup.notFound ∨
      SecretsLookup.notFound = SecretsLookup.raised) ∧ ("sk-test" : String) ≠ "") ∧
    get_api_key SecretsLookup.notFound (some "sk-test") = some "sk-test" :=
  ⟨⟨Or.inl rfl, by decide⟩,
   credential_resolution_order.2.2.1 SecretsLookup.notFound "sk-test" (Or.inl rfl) (by decide)⟩

/-- C10: the result of `get_ai_response` does not depend on its
`user_input` argument: same client and transcript give the same reply
for any two user inputs. -/
theorem reply_independent_of_user_input (client : Option Client)
    (u₁ u₂ : String) (messages : List Message) :
    get_ai_response client u₁ messages = get_ai_response client u₂ messages :=
  rfl

/-- C3: an accepted user turn in the Conversing phase (transcript longer
than 1, truthy constellation, non-empty input) grows the transcript by
exactly 2, appending the user message first and the assistant message
second, and every pre-existing entry — in particular the system message
at index 0 — keeps its position and value. -/
theorem chat_turn_appends_two (client : Option Client) (st : SessionState)
    (prompt : String) (hconv : 1 < st.messages.length)
    (hsign : st.user_info.constellation.getD "" ≠ "") (haccept : prompt ≠ "") :
    (chatTurn client st prompt).messages.length = st.messages.length + 2 ∧
    (∃ reply : String,
       (chatTurn client st prompt).messages =
         st.messages ++ [{ role := Role.user, content := prompt },
                         { role := Role.assistant, content := reply }]) ∧
    (∀ i : Nat, i < st.messages.length →
       (chatTurn client st prompt).messages[i]? = st.messages[i]?) := by
  refine ⟨?_, ⟨(get_ai_response client prompt
      (st.messages ++ [{ role := Role.user, content := prompt }])).reply, ?_⟩, ?_⟩
  · simp [chatTurn]
  · simp [chatTurn]
  · intro i hi
    simp only [chatTurn, List.append_assoc]
    exact List.getElem?_append_left hi

/-- Witness for C3: a concrete Conversing-phase state (system message
plus one completed turn) with the absent client and the input 我很焦虑. -/
theorem chat_turn_appends_two_witness :
    (1 < (SessionState.mk { constellation := some "狮子" }
        [{ role := Role.system, content := "s" },
         { role := Role.user, content := "u" },
         { role := Role.assistant, content := "a" }] (some "s")).messages.length ∧
     (SessionState.mk { constellation := some "狮子" }
        [{ role := Role.system, content := "s" },
         { role := Role.user, content := "u" },
         { role := Role.assistant, content := "a" }]
        (some "s")).user_info.constellation.getD "" ≠ "" ∧
     ("我很焦虑" : String) ≠ "") ∧
    ((chatTurn none (SessionState.mk { constellation := some "狮子" }
        [{ role := Role.system, content := "s" },
         { role := Role.user, content := "u" },
         { role := Role.assistant, content := "a" }] (some "s"))
        "我很焦虑").messages.length =
      (SessionState.mk { constellation := some "狮子" }
        [{ role := Role.system, content := "s" },
         { role := Role.user, content := "u" },
         { role := Role.assistant, content := "a" }]
        (some "s")).messages.length + 2 ∧
     (∃ reply : String,
        (chatTurn none (SessionState.mk { constellation := some "狮子" }
           [{ role := Role.system, content := "s" },
            { role := Role.user, content := "u" },
            { role := Role.assistant, content := "a" }] (some "s"))
           "我很焦虑").messages =
          (SessionState.mk { constellation := some "狮子" }
            [{ role := Role.system, content := "s" },
             { role := Role.user, content := "u" },
             { role := Role.assistant, content := "a" }] (some "s")).messages ++
            [{ role := Role.user, content := "我很焦虑" },
             { role := Role.assistant, content := reply }]) ∧
     (∀ i : Nat,
        i < (SessionState.mk { constellation := some "狮子" }
          [{ role := Role.system, content := "s" },
           { role := Role.user, content := "u" },
           { role := Role.assistant, content := "a" }] (some "s")).messages.length →
        (chatTurn none (SessionState.mk { constellation := some "狮子" }
           [{ role := Role.system, content := "s" },
            { role := Role.user, content := "u" },
            { role := Role.assistant, content := "a" }] (some "s"))
           "我很焦虑").messages[i]? =
          (SessionState.mk { constellation := some "狮子" }
            [{ role := Role.system, content := "s" },
             { role := Role.user, content := "u" },
             { role := Role.assistant, content := "a" }]
            (some "s")).messages[i]?)) :=
  ⟨⟨by decide, by decide, by decide⟩,
   chat_turn_appends_two none _ "我很焦虑" (by decide) (by decide) (by decide)⟩

/-- C7: `build_system_prompt` is deterministic (it is a pure function,
so equal inputs give equal outputs), and two profiles that differ only in
`birth_date` yield prompts that share a common prefix `A` and suffix `B`
and differ only in the optional birth-date line between them. -/
theorem prompt_differs_only_in_birth_date (p q : UserInfo)
    (hname : p.name = q.name) (hcon : p.constellation = q.constellation)
    (htime : p.birth_time = q.birth_time) :
    build_system_prompt p = build_system_prompt p ∧
    ∃ A B : String,
      build_system_prompt p = A ++ (dateLineOpt (p.birth_date.getD "") ++ B) ∧
      build_system_prompt q = A ++ (dateLineOpt (q.birth_date.getD "") ++ B) := by
  refine ⟨rfl,
    SYSTEM_PROMPT ++ "\n\n【用户星盘信息】\n" ++ "用户姓名：" ++ p.name.getD "朋友" ++
      "\n星座：" ++ p.constellation.getD "" ++
      "\n星座元素：" ++ get_constellation_element (p.constellation.getD ""),
    timeLineOpt (p.birth_time.getD "") ++
      "\n\n【重要要求】\n1. **必须结合用户的星座特性**来解读问题，给出符合其星座能量的建议。\n2. 如果是" ++
      p.constellation.getD "" ++ "（" ++
      get_constellation_element (p.constellation.getD "") ++
      "），要结合该星座的典型特征：\n   - 火象星座：行动力、热情、直接\n   - 水象星座：情感细腻、直觉强、敏感\n   - 土象星座：务实、稳定、注重实际\n   - 风象星座：理性、沟通、灵活\n3. 在回复中要自然地提及星座能量、星象影响等玄学元素。\n4. 用\"" ++
      "亲爱的" ++ p.name.getD "朋友" ++ "\"来称呼用户，让对话更亲切。\n",
    ?_, ?_⟩
  · rw [build_system_prompt_decomp p]
    simp only [str_append_assoc]
  · rw [build_system_prompt_decomp q, ← hname, ← hcon, ← htime]
    simp only [str_append_assoc]

/-- Witness for C7: Alex/狮子 with and without a birth date. -/
theorem prompt_differs_only_in_birth_date_witness :
    ((UserInfo.mk (some "Alex") (some "狮子") (some "2000-01-01") (some "")).name =
       (UserInfo.mk (some "Alex") (some "狮子") (some "") (some "")).name ∧
     (UserInfo.mk (some "Alex") (some "狮子") (some "2000-01-01") (some "")).constellation =
       (UserInfo.mk (some "Alex") (some "狮子") (some "") (some "")).constellation ∧
     (UserInfo.mk (some "Alex") (some "狮子") (some "2000-01-01") (some "")).birth_time =
       (UserInfo.mk (some "Alex") (some "狮子") (some "") (some "")).birth_time) ∧
    (build_system_prompt (UserInfo.mk (some "Alex") (some "狮子") (some "2000-01-01") (some "")) =
       build_system_prompt (UserInfo.mk (some "Alex") (some "狮子") (some "2000-01-01") (some "")) ∧
     ∃ A B : String,
       build_system_prompt (UserInfo.mk (some "Alex") (some "狮子") (some "2000-01-01") (some "")) =
         A ++ (dateLineOpt ((UserInfo.mk (some "Alex") (some "狮子")
           (some "2000-01-01") (some "")).birth_date.getD "") ++ B) ∧
       build_system_prompt (UserInfo.mk (some "Alex") (some "狮子") (some "") (some "")) =
         A ++ (dateLineOpt ((UserInfo.mk (some "Alex") (some "狮子")
           (some "") (some "")).birth_date.getD "") ++ B)) :=
  ⟨⟨rfl, rfl, rfl⟩,
   prompt_differs_only_in_birth_date
     (UserInfo.mk (some "Alex") (some "狮子") (some "2000-01-01") (some ""))
     (UserInfo.mk (some "Alex") (some "狮子") (some "") (some "")) rfl rfl rfl⟩

set_option maxRecDepth 4096

/-- Counterexample to C2 as stated: for the profile with the unknown
constellation 猫, classification fails (未知元素), yet the built prompt
still contains the element line marker 星座元素： — the `if element:`
guard never fails because the classifier never returns an empty string. -/
theorem element_line_despite_failed_classification :
    get_constellation_element "猫" = "未知元素" ∧
    strContains
      (build_system_prompt (UserInfo.mk (some "Alex") (some "猫") (some "") (some "")))
      "星座元素：" = true := by
  constructor
  · decide
  · decide

/-- C2 (amended): the element line is always present — carrying 未知元素
when classification fails — while the birth-date and birth-time lines
are each present exactly when the corresponding field is non-empty, as
`dateLineOpt`/`timeLineOpt` make explicit. -/
theorem profile_block_line_structure (info : UserInfo) :
    ∃ A B : String,
      build_system_prompt info =
        A ++ ("\n星座元素：" ++ (get_constellation_element (info.constellation.getD "") ++
          (dateLineOpt (info.birth_date.getD "") ++
            (timeLineOpt (info.birth_time.getD "") ++ B)))) := by
  refine ⟨SYSTEM_PROMPT ++ "\n\n【用户星盘信息】\n" ++ "用户姓名：" ++ info.name.getD "朋友" ++
      "\n星座：" ++ info.constellation.getD "",
    "\n\n【重要要求】\n1. **必须结合用户的星座特性**来解读问题，给出符合其星座能量的建议。\n2. 如果是" ++
      info.constellation.getD "" ++ "（" ++
      get_constellation_element (info.constellation.getD "") ++
      "），要结合该星座的典型特征：\n   - 火象星座：行动力、热情、直接\n   - 水象星座：情感细腻、直觉强、敏感\n   - 土象星座：务实、稳定、注重实际\n   - 风象星座：理性、沟通、灵活\n3. 在回复中要自然地提及星座能量、星象影响等玄学元素。\n4. 用\"" ++
      "亲爱的" ++ info.name.getD "朋友" ++ "\"来称呼用户，让对话更亲切。\n", ?_⟩
  rw [build_system_prompt_decomp info]
  simp only [str_append_assoc]

/-- Counterexample to C8 as stated: a profile whose `name` field is the
empty string (key present, value `""`) is NOT given the 朋友 fallback by
`build_system_prompt` — `dict.get("name", "朋友")` only falls back when
the key is missing — so the built prompt contains no 朋友 at all and the
honorific slot is empty (亲爱的 is immediately followed by the closing
quote). -/
theorem empty_name_no_fallback_in_builder :
    strContains
      (build_system_prompt (UserInfo.mk (some "") (some "白羊") (some "") (some "")))
      "朋友" = false ∧
    strContains
      (build_system_prompt (UserInfo.mk (some "") (some "白羊") (some "") (some "")))
      "亲爱的\"" = true := by
  constructor
  · decide
  · decide

/-- C8 (amended): the empty-name fallback is applied by the sidebar form
before confirmation (`if not name: name = "朋友"`), so a confirmed
profile with an empty form name stores 朋友 and its system prompt
addresses the user as 亲爱的朋友; `build_system_prompt` itself uses 朋友
only when the name key is absent. -/
theorem name_fallback_applied_by_form (st : SessionState) (form : FormInput)
    (hname : form.name = "") (hcon : form.constellation ≠ "") :
    (confirmClick st form).1.user_info.name = some "朋友" ∧
    (∃ A B : String,
       (confirmClick st form).1.system_prompt =
         some (A ++ ("亲爱的" ++ ("朋友" ++ B)))) ∧
    (∀ c bd bt : Option String,
       (UserInfo.mk none c bd bt).name.getD "朋友" = "朋友") := by
  refine ⟨?_, ⟨SYSTEM_PROMPT ++ "\n\n【用户星盘信息】\n" ++ "用户姓名：" ++ "朋友" ++
      "\n星座：" ++ form.constellation ++
      "\n星座元素：" ++ get_constellation_element form.constellation ++
      dateLineOpt form.birth_date ++ timeLineOpt form.birth_time ++
      "\n\n【重要要求】\n1. **必须结合用户的星座特性**来解读问题，给出符合其星座能量的建议。\n2. 如果是" ++
      form.constellation ++ "（" ++ get_constellation_element form.constellation ++
      "），要结合该星座的典型特征：\n   - 火象星座：行动力、热情、直接\n   - 水象星座：情感细腻、直觉强、敏感\n   - 土象星座：务实、稳定、注重实际\n   - 风象星座：理性、沟通、灵活\n3. 在回复中要自然地提及星座能量、星象影响等玄学元素。\n4. 用\"",
      "\"来称呼用户，让对话更亲切。\n", ?_⟩, fun c bd bt => rfl⟩
  · simp [confirmClick, hcon, confirmedInfo, hname]
  · simp only [confirmClick, hcon, ne_eq, not_false_eq_true, if_true, ite_true]
    rw [build_system_prompt_decomp]
    simp only [confirmedInfo, hname, ite_true, if_true, Option.getD_some, Option.some.injEq]
    simp only [str_append_assoc]

/-- Witness for C8 (amended): the concrete form with an empty name and
constellation 白羊, confirmed from the initial state. -/
theorem name_fallback_applied_by_form_witness :
    ((FormInput.mk "" "白羊" "" "").name = "" ∧
     (FormInput.mk "" "白羊" "" "").constellation ≠ "") ∧
    ((confirmClick initState (FormInput.mk "" "白羊" "" "")).1.user_info.name =
       some "朋友" ∧
     (∃ A B : String,
        (confirmClick initState (FormInput.mk "" "白羊" "" "")).1.system_prompt =
          some (A ++ ("亲爱的" ++ ("朋友" ++ B)))) ∧
     (∀ c bd bt : Option String,
        (UserInfo.mk none c bd bt).name.getD "朋友" = "朋友")) :=
  ⟨⟨rfl, by decide⟩,
   name_fallback_applied_by_form initState (FormInput.mk "" "白羊" "" "") rfl (by decide)⟩

end JoyHealer
